import Mathlib

/-!
Verification development for the viral-content analysis service.

The definitions below are a shallow embedding of the Python sources
`api/services/viral.py`, `api/routers/analyze.py` and `api/utils/youtube.py`:
pure functions become Lean functions, external calls (the Gemini model)
become explicit outcome parameters, and Python exceptions become
`Except`/`Option` values.  Machine integers are modelled as `Int`/`Nat`
(Python integers are unbounded) and the float division `likes / views`
is modelled exactly over `ℚ`.
-/

/-! ## Python string primitives -/

/-- Model of Python `str.lower()` (ASCII case folding, which covers every
keyword used by the service). -/
def pyLower (s : String) : String := String.mk (s.data.map Char.toLower)

/-- Whether `needle` starts the list `hay` (helper for substring search). -/
def startsWithList : List Char → List Char → Bool
  | [], _ => true
  | _ :: _, [] => false
  | a :: as, b :: bs => (a == b) && startsWithList as bs

/-- Whether `needle` occurs contiguously inside `hay` (helper). -/
def containsList (needle : List Char) : List Char → Bool
  | [] => startsWithList needle []
  | c :: rest => startsWithList needle (c :: rest) || containsList needle rest

/-- Model of the Python substring test `needle in haystack`. -/
def pySubstr (needle haystack : String) : Bool :=
  containsList needle.data haystack.data

/-- Characters treated as whitespace by Python `str.split()`. -/
def pyIsSpace (c : Char) : Bool :=
  (c == ' ') || (c == '\t') || (c == '\n') || (c == '\r') || (c == '\x0b') || (c == '\x0c')

/-- Model of Python `str.split()` with no argument: split on whitespace
runs and drop empty pieces. -/
def pySplitWS (s : String) : List String :=
  (s.split pyIsSpace).filter (fun t => !t.isEmpty)

/-! ## api/utils/youtube.py : `_parse_duration` (lines 30-46)

The regex `(?:(\d+)H)?(?:(\d+)M)?(?:(\d+)S)?` is applied with `re.match`
after stripping the `PT` marker.  Every group is optional, so the regex
always matches (the `if not time_matches` guard on line 39 can never
fire); each group greedily consumes a digit run that must be followed by
its unit letter, otherwise the group is skipped and the position is
unchanged.  Characters after the last matched group are ignored. -/

/-- Model of Python `int(...)` applied to a digit string. -/
def digitsToNat (ds : List Char) : Nat :=
  ds.foldl (fun a c => 10 * a + (c.toNat - 48)) 0

/-- One regex group `(?:(\d+)U)?`: greedily take the digit run; succeed only
when it is non-empty and immediately followed by the unit letter `u`. -/
def matchNumUnit (u : Char) (cs : List Char) : Option (Nat × List Char) :=
  if (cs.takeWhile Char.isDigit).isEmpty then none
  else
    match cs.dropWhile Char.isDigit with
    | c :: rs => if c = u then some (digitsToNat (cs.takeWhile Char.isDigit), rs) else none
    | [] => none

/-- An optional regex group: on failure the group's value is absent and the
scan position is unchanged. -/
def optGroup (u : Char) (cs : List Char) : Option Nat × List Char :=
  match matchNumUnit u cs with
  | some (n, rs) => (some n, rs)
  | none => (none, cs)

/-- Embedding of `_parse_duration` (youtube.py lines 30-46): empty or
non-`PT`-prefixed strings give 0; otherwise the three optional groups are
matched in order H, M, S and summed as seconds. -/
def _parse_duration (duration_str : String) : Nat :=
  match duration_str.data with
  | 'P' :: 'T' :: rest =>
    let g1 := optGroup 'H' rest
    let g2 := optGroup 'M' g1.2
    let g3 := optGroup 'S' g2.2
    g1.1.getD 0 * 3600 + g2.1.getD 0 * 60 + g3.1.getD 0
  | _ => 0

/-! Spec-side definitions for claim C9 (written from the claim's words, to
be compared against `_parse_duration`). -/

/-- Consume one canonical `digits?U` component if present (claim-side). -/
def chompComponent (u : Char) (cs : List Char) : List Char :=
  match cs.dropWhile Char.isDigit with
  | c :: rest =>
    if c = u && !(cs.takeWhile Char.isDigit).isEmpty then rest else cs
  | [] => cs

/-- Claim-side formalisation of the format named by C9: the string is
exactly `PT` followed by optional in-order components `#H`, `#M`, `#S`
(each a non-empty digit run plus its unit letter) and nothing else. -/
def claim_canonical_PTHMS (s : String) : Bool :=
  match s.data with
  | 'P' :: 'T' :: rest =>
    (chompComponent 'S' (chompComponent 'M' (chompComponent 'H' rest))).isEmpty
  | _ => false

/-- Builds a duration string from optional digit runs for H, M, S. -/
def optPart (o : Option (List Char)) (u : Char) : List Char :=
  match o with
  | some ds => ds ++ [u]
  | none => []

/-- A string of shape `PT  [h H]  [m M]  [s S]`. -/
def mkDuration (ho mo so : Option (List Char)) : String :=
  String.mk ('P' :: 'T' :: (optPart ho 'H' ++ (optPart mo 'M' ++ optPart so 'S')))

/-- The optional digit-run argument is absent or a non-empty run of digits. -/
def optDigits (o : Option (List Char)) : Bool :=
  match o with
  | none => true
  | some ds => (!ds.isEmpty) && ds.all Char.isDigit

/-! ### Lemmas about the duration scanner -/

theorem span_digits_append (ds rest : List Char) (u : Char)
    (h2 : ∀ c ∈ ds, Char.isDigit c = true) (hu : Char.isDigit u = false) :
    (ds ++ u :: rest).takeWhile Char.isDigit = ds ∧
      (ds ++ u :: rest).dropWhile Char.isDigit = u :: rest := by
  induction ds with
  | nil => simp [List.takeWhile_cons, List.dropWhile_cons, hu]
  | cons c cs ih =>
    have hc : Char.isDigit c = true := h2 c (by simp)
    have hrec := ih (fun x hx => h2 x (by simp [hx]))
    simp [List.takeWhile_cons, List.dropWhile_cons, hc, hrec.1, hrec.2]

theorem optGroup_match (u : Char) (ds rest : List Char)
    (h1 : ds ≠ []) (h2 : ∀ c ∈ ds, Char.isDigit c = true)
    (hu : Char.isDigit u = false) :
    optGroup u (ds ++ u :: rest) = (some (digitsToNat ds), rest) := by
  have hspan := span_digits_append ds rest u h2 hu
  unfold optGroup matchNumUnit
  rw [hspan.1, hspan.2]
  simp [h1]

theorem optGroup_skip (u c : Char) (ds rest : List Char)
    (h2 : ∀ x ∈ ds, Char.isDigit x = true)
    (hc : Char.isDigit c = false) (hne : c ≠ u) :
    optGroup u (ds ++ c :: rest) = (none, ds ++ c :: rest) := by
  have hspan := span_digits_append ds rest c h2 hc
  unfold optGroup matchNumUnit
  rw [hspan.1, hspan.2]
  by_cases hd : ds = []
  · simp [hd, hne]
  · simp [hd, hne]

theorem optGroup_nil (u : Char) : optGroup u [] = (none, []) := by
  unfold optGroup matchNumUnit
  simp

theorem optDigits_some (ds : List Char) (h : optDigits (some ds) = true) :
    ds ≠ [] ∧ ∀ c ∈ ds, Char.isDigit c = true := by
  refine ⟨?_, ?_⟩
  · intro hnil
    subst hnil
    simp [optDigits] at h
  · have h2 : ds.all Char.isDigit = true := by
      simp only [optDigits, Bool.and_eq_true] at h
      exact h.2
    intro c hc
    exact List.all_eq_true.mp h2 c hc

theorem parse_duration_PT (L : List Char) :
    _parse_duration (String.mk ('P' :: 'T' :: L)) =
      (optGroup 'H' L).1.getD 0 * 3600 +
        (optGroup 'M' (optGroup 'H' L).2).1.getD 0 * 60 +
        (optGroup 'S' (optGroup 'M' (optGroup 'H' L).2).2).1.getD 0 := rfl

theorem groupH (ho mo so : Option (List Char)) (h1 : optDigits ho = true)
    (h2 : optDigits mo = true) (h3 : optDigits so = true) :
    optGroup 'H' (optPart ho 'H' ++ (optPart mo 'M' ++ optPart so 'S')) =
      (ho.map digitsToNat, optPart mo 'M' ++ optPart so 'S') := by
  cases ho with
  | some hd =>
    obtain ⟨hne, hdig⟩ := optDigits_some hd h1
    have heq : optPart (some hd) 'H' ++ (optPart mo 'M' ++ optPart so 'S') =
        hd ++ 'H' :: (optPart mo 'M' ++ optPart so 'S') := by
      simp [optPart]
    rw [heq, optGroup_match 'H' hd _ hne hdig (by decide)]
    rfl
  | none =>
    have heq : optPart (none : Option (List Char)) 'H' ++ (optPart mo 'M' ++ optPart so 'S') =
        optPart mo 'M' ++ optPart so 'S' := by
      simp [optPart]
    rw [heq]
    cases mo with
    | some md =>
      obtain ⟨hm1, hm2⟩ := optDigits_some md h2
      have heq2 : optPart (some md) 'M' ++ optPart so 'S' = md ++ 'M' :: optPart so 'S' := by
        simp [optPart]
      rw [heq2, optGroup_skip 'H' 'M' md _ hm2 (by decide) (by decide)]
      rfl
    | none =>
      cases so with
      | some sd =>
        obtain ⟨hs1, hs2⟩ := optDigits_some sd h3
        have heq2 : optPart (none : Option (List Char)) 'M' ++ optPart (some sd) 'S' =
            sd ++ 'S' :: [] := by
          simp [optPart]
        rw [heq2, optGroup_skip 'H' 'S' sd [] hs2 (by decide) (by decide)]
        simp [optPart]
      | none =>
        simp [optPart, optGroup_nil]

theorem groupM (mo so : Option (List Char)) (h2 : optDigits mo = true)
    (h3 : optDigits so = true) :
    optGroup 'M' (optPart mo 'M' ++ optPart so 'S') =
      (mo.map digitsToNat, optPart so 'S') := by
  cases mo with
  | some md =>
    obtain ⟨hne, hdig⟩ := optDigits_some md h2
    have heq : optPart (some md) 'M' ++ optPart so 'S' = md ++ 'M' :: optPart so 'S' := by
      simp [optPart]
    rw [heq, optGroup_match 'M' md _ hne hdig (by decide)]
    rfl
  | none =>
    have heq : optPart (none : Option (List Char)) 'M' ++ optPart so 'S' = optPart so 'S' := by
      simp [optPart]
    rw [heq]
    cases so with
    | some sd =>
      obtain ⟨hs1, hs2⟩ := optDigits_some sd h3
      have heq2 : optPart (some sd) 'S' = sd ++ 'S' :: [] := by simp [optPart]
      rw [heq2, optGroup_skip 'M' 'S' sd [] hs2 (by decide) (by decide)]
      simp [optPart]
    | none =>
      simp [optPart, optGroup_nil]

theorem groupS (so : Option (List Char)) (h3 : optDigits so = true) :
    optGroup 'S' (optPart so 'S') = (so.map digitsToNat, []) := by
  cases so with
  | some sd =>
    obtain ⟨hne, hdig⟩ := optDigits_some sd h3
    have heq : optPart (some sd) 'S' = sd ++ 'S' :: [] := by simp [optPart]
    rw [heq, optGroup_match 'S' sd [] hne hdig (by decide)]
    rfl
  | none =>
    simp [optPart, optGroup_nil]

/-- C9 counterexample: "PT1H30" is not of the canonical `PT#H#M#S` shape
(trailing junk after the hour component), yet `_parse_duration` returns
3600 rather than the 0 the claim requires for malformed strings. -/
theorem C9_counterexample_trailing_junk :
    claim_canonical_PTHMS "PT1H30" = false ∧ _parse_duration "PT1H30" = 3600 ∧
      _parse_duration "PT1H30" ≠ 0 := by
  refine ⟨by decide, by decide, by decide⟩

/-- C9 (amended): `_parse_duration` maps every string of the canonical
`PT#H#M#S` shape (each component optional) to its total seconds, and
returns 0 for the empty string and any string not starting with `PT`;
but characters after the matched components are ignored rather than
forcing a 0 result (see the counterexample). -/
theorem C9_parse_duration_amended :
    (∀ s : String, s.data.take 2 ≠ ['P', 'T'] → _parse_duration s = 0) ∧
      (∀ ho mo so : Option (List Char),
        optDigits ho = true → optDigits mo = true → optDigits so = true →
        _parse_duration (mkDuration ho mo so) =
          (ho.map digitsToNat).getD 0 * 3600 + (mo.map digitsToNat).getD 0 * 60 +
            (so.map digitsToNat).getD 0) := by
  constructor
  · intro s hs
    unfold _parse_duration
    split
    · next rest heq => exact absurd (by rw [heq]; rfl) hs
    · rfl
  · intro ho mo so h1 h2 h3
    have hmk : mkDuration ho mo so =
        String.mk ('P' :: 'T' :: (optPart ho 'H' ++ (optPart mo 'M' ++ optPart so 'S'))) := rfl
    rw [hmk, parse_duration_PT, groupH ho mo so h1 h2 h3]
    rw [groupM mo so h2 h3, groupS so h3]

/-- C9 witness: the amended theorem applied at concrete inputs
("X" has no `PT` marker; `PT1H2M3S` parses to 3723 seconds). -/
theorem C9_parse_duration_witness :
    _parse_duration "X" = 0 ∧
      _parse_duration (mkDuration (some ['1']) (some ['2']) (some ['3'])) =
        digitsToNat ['1'] * 3600 + digitsToNat ['2'] * 60 + digitsToNat ['3'] :=
  ⟨C9_parse_duration_amended.1 "X" (by decide),
   C9_parse_duration_amended.2 (some ['1']) (some ['2']) (some ['3'])
     (by decide) (by decide) (by decide)⟩

/-! ## A model of Python `json.loads`

`_get_dynamic_engaging_words` (viral.py lines 33-48) feeds the first
`\x7b...\x7d`-shaped substring of the model response to `json.loads`.  The
parser below follows the JSON grammar accepted by Python's `json` module
(strict strings, no leading zeros, optional `NaN`/`Infinity` constants);
numbers keep their lexeme because the service never uses numeric values.
Fuel-indexed recursion keeps every definition structurally recursive and
hence evaluable by `decide`. -/

inductive Json where
  | null
  | bool (b : Bool)
  | num (lexeme : String)
  | str (s : String)
  | arr (elems : List Json)
  | obj (members : List (String × Json))

/-- JSON insignificant whitespace. -/
def skipWs : List Char → List Char
  | [] => []
  | c :: cs =>
    if (c == ' ') || (c == '\t') || (c == '\n') || (c == '\r') then skipWs cs else c :: cs

/-- Single-character string escapes. -/
def escChar (c : Char) : Option Char :=
  if c = '"' then some '"'
  else if c = '\\' then some '\\'
  else if c = '/' then some '/'
  else if c = 'b' then some (Char.ofNat 8)
  else if c = 'f' then some (Char.ofNat 12)
  else if c = 'n' then some '\n'
  else if c = 'r' then some '\r'
  else if c = 't' then some '\t'
  else none

def hexDigitVal (c : Char) : Option Nat :=
  if '0' ≤ c ∧ c ≤ '9' then some (c.toNat - 48)
  else if 'a' ≤ c ∧ c ≤ 'f' then some (c.toNat - 97 + 10)
  else if 'A' ≤ c ∧ c ≤ 'F' then some (c.toNat - 65 + 10)
  else none

def hex4 : List Char → Option (Nat × List Char)
  | a :: b :: c :: d :: rest => do
    let x ← hexDigitVal a
    let y ← hexDigitVal b
    let z ← hexDigitVal c
    let w ← hexDigitVal d
    some (((x * 16 + y) * 16 + z) * 16 + w, rest)
  | _ => none

/-- Parses the body of a JSON string after the opening quote, returning the
decoded characters and the remaining input.  Surrogate pairs in `\uXXXX`
escapes are combined; a lone surrogate (unrepresentable as a Lean `Char`)
decodes through `Char.ofNat`'s fallback, which no claim depends on. -/
def parseJString : Nat → List Char → Option (List Char × List Char)
  | 0, _ => none
  | _, [] => none
  | fuel + 1, c :: cs =>
    if c = '"' then some ([], cs)
    else if c = '\\' then
      match cs with
      | [] => none
      | 'u' :: cs1 =>
        match hex4 cs1 with
        | none => none
        | some (n, cs2) =>
          if 0xD800 ≤ n ∧ n ≤ 0xDBFF then
            match cs2 with
            | '\\' :: 'u' :: cs3 =>
              (match hex4 cs3 with
               | some (m, cs4) =>
                 if 0xDC00 ≤ m ∧ m ≤ 0xDFFF then
                   (parseJString fuel cs4).map (fun p =>
                     (Char.ofNat (0x10000 + (n - 0xD800) * 0x400 + (m - 0xDC00)) :: p.1, p.2))
                 else (parseJString fuel cs2).map (fun p => (Char.ofNat n :: p.1, p.2))
               | none => (parseJString fuel cs2).map (fun p => (Char.ofNat n :: p.1, p.2)))
            | _ => (parseJString fuel cs2).map (fun p => (Char.ofNat n :: p.1, p.2))
          else (parseJString fuel cs2).map (fun p => (Char.ofNat n :: p.1, p.2))
      | e :: cs1 =>
        match escChar e with
        | none => none
        | some ch => (parseJString fuel cs1).map (fun p => (ch :: p.1, p.2))
    else if c.toNat < 32 then none
    else (parseJString fuel cs).map (fun p => (c :: p.1, p.2))

/-- Exponent portion of a number, after the mantissa lexeme `lex`. -/
def parseExpTail (lex pre : List Char) (cs : List Char) : Option (List Char × List Char) :=
  let sgn : List Char := match cs with | '+' :: _ => ['+'] | '-' :: _ => ['-'] | _ => []
  let cs1 : List Char := match cs with | '+' :: t => t | '-' :: t => t | _ => cs
  if (cs1.takeWhile Char.isDigit).isEmpty then none
  else some (lex ++ pre ++ sgn ++ cs1.takeWhile Char.isDigit, cs1.dropWhile Char.isDigit)

def parseExpPart (lex : List Char) (cs : List Char) : Option (List Char × List Char) :=
  match cs with
  | 'e' :: rest => parseExpTail lex ['e'] rest
  | 'E' :: rest => parseExpTail lex ['E'] rest
  | _ => some (lex, cs)

/-- Unsigned JSON number: `0 | [1-9][0-9]*`, optional fraction, optional
exponent; leading zeros are rejected as in Python's `json`. -/
def parseUnsignedNumber (cs : List Char) : Option (List Char × List Char) :=
  match cs with
  | [] => none
  | c :: rest =>
    if c.isDigit then
      let ip : List Char := if c = '0' then ['0'] else cs.takeWhile Char.isDigit
      let r1 : List Char := if c = '0' then rest else cs.dropWhile Char.isDigit
      match r1 with
      | '.' :: r2 =>
        if (r2.takeWhile Char.isDigit).isEmpty then none
        else parseExpPart (ip ++ '.' :: r2.takeWhile Char.isDigit) (r2.dropWhile Char.isDigit)
      | _ => parseExpPart ip r1
    else none

def parseNumber (cs : List Char) : Option (List Char × List Char) :=
  match cs with
  | '-' :: t => (parseUnsignedNumber t).map (fun p => ('-' :: p.1, p.2))
  | _ => parseUnsignedNumber cs

/-- Parsing modes: a value, object members, or array elements. -/
inductive JMode where
  | v
  | m
  | e

/-- The recursive JSON parser.  Mode `m` returns `Json.obj`, mode `e`
returns `Json.arr`; the fuel bounds the nesting depth. -/
def parseF : Nat → JMode → List Char → Option (Json × List Char)
  | 0, _, _ => none
  | fuel + 1, JMode.v, cs0 =>
    match skipWs cs0 with
    | '{' :: rest =>
      (match skipWs rest with
       | '}' :: rs => some (Json.obj [], rs)
       | _ => parseF fuel JMode.m rest)
    | '[' :: rest =>
      (match skipWs rest with
       | ']' :: rs => some (Json.arr [], rs)
       | _ => parseF fuel JMode.e rest)
    | '"' :: rest =>
      (match parseJString (rest.length + 1) rest with
       | some (b, r) => some (Json.str (String.mk b), r)
       | none => none)
    | 't' :: 'r' :: 'u' :: 'e' :: rest => some (Json.bool true, rest)
    | 'f' :: 'a' :: 'l' :: 's' :: 'e' :: rest => some (Json.bool false, rest)
    | 'n' :: 'u' :: 'l' :: 'l' :: rest => some (Json.null, rest)
    | 'N' :: 'a' :: 'N' :: rest => some (Json.num "NaN", rest)
    | 'I' :: 'n' :: 'f' :: 'i' :: 'n' :: 'i' :: 't' :: 'y' :: rest =>
      some (Json.num "Infinity", rest)
    | '-' :: 'I' :: 'n' :: 'f' :: 'i' :: 'n' :: 'i' :: 't' :: 'y' :: rest =>
      some (Json.num "-Infinity", rest)
    | cs =>
      (match parseNumber cs with
       | some (lex, r) => some (Json.num (String.mk lex), r)
       | none => none)
  | fuel + 1, JMode.m, cs =>
    match skipWs cs with
    | '"' :: rest =>
      (match parseJString (rest.length + 1) rest with
       | none => none
       | some (key, r1) =>
         match skipWs r1 with
         | ':' :: r2 =>
           (match parseF fuel JMode.v r2 with
            | none => none
            | some (v, r3) =>
              match skipWs r3 with
              | ',' :: r4 =>
                (match parseF fuel JMode.m r4 with
                 | some (Json.obj kvs, r) => some (Json.obj ((String.mk key, v) :: kvs), r)
                 | _ => none)
              | '}' :: r4 => some (Json.obj [(String.mk key, v)], r4)
              | _ => none)
         | _ => none)
    | _ => none
  | fuel + 1, JMode.e, cs =>
    match parseF fuel JMode.v cs with
    | none => none
    | some (v, r1) =>
      match skipWs r1 with
      | ',' :: r2 =>
        (match parseF fuel JMode.e r2 with
         | some (Json.arr xs, r) => some (Json.arr (v :: xs), r)
         | _ => none)
      | ']' :: r2 => some (Json.arr [v], r2)
      | _ => none

/-- Model of `json.loads`: parse one value and require only whitespace
after it; `none` models a raised `JSONDecodeError`. -/
def jsonLoads (s : String) : Option Json :=
  match parseF (2 * s.data.length + 2) JMode.v s.data with
  | some (j, rest) => if (skipWs rest).isEmpty then some j else none
  | none => none

/-! ## viral.py : `_get_dynamic_engaging_words` (lines 17-48) -/

/-- Index of the first occurrence of `c`. -/
def firstIdxOf (c : Char) : List Char → Option Nat
  | [] => none
  | x :: xs => if x = c then some 0 else (firstIdxOf c xs).map (· + 1)

/-- Index of the last occurrence of `c`. -/
def lastIdxOf (c : Char) (cs : List Char) : Option Nat :=
  match firstIdxOf c cs.reverse with
  | some i => some (cs.length - 1 - i)
  | none => none

/-- Model of `re.search` with the pattern used on viral.py line 35 under
`re.DOTALL`: the leftmost match starts at the first opening brace and the
greedy `.*` extends it to the last closing brace of the whole text, so a
match exists exactly when some closing brace follows the first opening
brace. -/
def jsonMatch (s : String) : Option String :=
  match firstIdxOf '{' s.data, lastIdxOf '}' s.data with
  | some i, some j =>
    if i < j then some (String.mk ((s.data.drop i).take (j - i + 1))) else none
  | _, _ => none

/-- Python `dict` lookup for an object built by `json.loads`: a duplicated
key keeps its last value. -/
def lookupLast (kvs : List (String × Json)) (k : String) : Option Json :=
  kvs.foldl (fun acc kv => if kv.1 = k then some kv.2 else acc) none

/-- The `isinstance` validation on viral.py line 42: the value must be a
list whose elements are all strings. -/
def asStringList : List Json → Option (List String)
  | [] => some []
  | Json.str s :: rest => (asStringList rest).map (fun ws => s :: ws)
  | _ => none

/-- The fixed fallback list returned by the `except` handler
(viral.py line 48). -/
def FALLBACK_ENGAGING_WORDS : List String :=
  ["how to", "why", "secret", "amazing", "guide", "ultimate", "best", "worst",
   "shocking", "hack", "tips", "tricks"]

/-- Embedding of `_get_dynamic_engaging_words` (viral.py lines 17-48).
`geminiOutcome` is the outcome of the external call
`gemini_service._generate_content(prompt)`: `Except.error` models an
exception raised by the call, `Except.ok` carries the response text.
`category` and `content_snippet` only shape the prompt, hence only the
oracle's answer.  A `jsonLoads` failure models `json.loads` raising
`JSONDecodeError`, which the surrounding `try` converts to the fallback
list; the explicit `return []` paths stay inside the `try`. -/
def _get_dynamic_engaging_words (geminiOutcome : Except Unit String)
    (_category _content_snippet : String) : List String :=
  match geminiOutcome with
  | Except.error _ => FALLBACK_ENGAGING_WORDS
  | Except.ok response_text =>
    match jsonMatch response_text with
    | none => []
    | some clean_json =>
      match jsonLoads clean_json with
      | none => FALLBACK_ENGAGING_WORDS
      | some words_data =>
        match words_data with
        | Json.obj kvs =>
          (match lookupLast kvs "engaging_words" with
           | none => []
           | some v =>
             match v with
             | Json.arr items =>
               (match asStringList items with
                | some ws => ws.map pyLower
                | none => [])
             | _ => [])
        | _ => FALLBACK_ENGAGING_WORDS

/-- C3 counterexample: the response text "\x7boops\x7d" contains a
JSON-object-shaped substring, so the regex matches, but `json.loads`
fails on it; that failure is raised inside the `try` block and therefore
produces the fixed fallback list, not the empty list the claim
requires for unparseable JSON. -/
theorem C3_counterexample_unparseable_json :
    jsonMatch "\x7boops\x7d" = some "\x7boops\x7d" ∧
      jsonLoads "\x7boops\x7d" = none ∧
      _get_dynamic_engaging_words (Except.ok "\x7boops\x7d") "tech" "snippet" =
        FALLBACK_ENGAGING_WORDS ∧
      FALLBACK_ENGAGING_WORDS ≠ ([] : List String) := by
  refine ⟨rfl, rfl, rfl, ?_⟩
  simp [FALLBACK_ENGAGING_WORDS]

/-- C3 (amended): in the engaging-words provider, the failure paths are:
an exception during the external call yields the fixed fallback list; a
response with no JSON-shaped substring yields the empty list; a matched
substring that `json.loads` cannot parse raises inside the `try` and
therefore also yields the fixed fallback list (this is where the claim
was wrong); a parsed object with a missing `engaging_words` key, a
non-list value, or a list containing a non-string yields the empty list;
and a list of strings is returned lower-cased. -/
theorem C3_engaging_words_failure_paths :
    (∀ (e : Unit) (cat snip : String),
        _get_dynamic_engaging_words (Except.error e) cat snip = FALLBACK_ENGAGING_WORDS) ∧
      (∀ (r cat snip : String), jsonMatch r = none →
        _get_dynamic_engaging_words (Except.ok r) cat snip = []) ∧
      (∀ (r j cat snip : String), jsonMatch r = some j → jsonLoads j = none →
        _get_dynamic_engaging_words (Except.ok r) cat snip = FALLBACK_ENGAGING_WORDS) ∧
      (∀ (r j cat snip : String) (kvs : List (String × Json)),
        jsonMatch r = some j → jsonLoads j = some (Json.obj kvs) →
        lookupLast kvs "engaging_words" = none →
        _get_dynamic_engaging_words (Except.ok r) cat snip = []) ∧
      (∀ (r j cat snip : String) (kvs : List (String × Json)) (items : List Json)
          (ws : List String),
        jsonMatch r = some j → jsonLoads j = some (Json.obj kvs) →
        lookupLast kvs "engaging_words" = some (Json.arr items) →
        asStringList items = some ws →
        _get_dynamic_engaging_words (Except.ok r) cat snip = ws.map pyLower) ∧
      (∀ (r j cat snip : String) (kvs : List (String × Json)) (items : List Json),
        jsonMatch r = some j → jsonLoads j = some (Json.obj kvs) →
        lookupLast kvs "engaging_words" = some (Json.arr items) →
        asStringList items = none →
        _get_dynamic_engaging_words (Except.ok r) cat snip = []) ∧
      (∀ (r j cat snip : String) (kvs : List (String × Json)) (v : Json),
        jsonMatch r = some j → jsonLoads j = some (Json.obj kvs) →
        lookupLast kvs "engaging_words" = some v → (∀ items, v ≠ Json.arr items) →
        _get_dynamic_engaging_words (Except.ok r) cat snip = []) := by
  refine ⟨?_, ?_, ?_, ?_, ?_, ?_, ?_⟩
  · intro e cat snip
    rfl
  · intro r cat snip h1
    simp [_get_dynamic_engaging_words, h1]
  · intro r j cat snip h1 h2
    simp [_get_dynamic_engaging_words, h1, h2]
  · intro r j cat snip kvs h1 h2 h3
    simp [_get_dynamic_engaging_words, h1, h2, h3]
  · intro r j cat snip kvs items ws h1 h2 h3 h4
    simp [_get_dynamic_engaging_words, h1, h2, h3, h4]
  · intro r j cat snip kvs items h1 h2 h3 h4
    simp [_get_dynamic_engaging_words, h1, h2, h3, h4]
  · intro r j cat snip kvs v h1 h2 h3 h4
    cases v with
    | null => simp [_get_dynamic_engaging_words, h1, h2, h3]
    | bool b => simp [_get_dynamic_engaging_words, h1, h2, h3]
    | num l => simp [_get_dynamic_engaging_words, h1, h2, h3]
    | str s => simp [_get_dynamic_engaging_words, h1, h2, h3]
    | arr items => exact absurd rfl (h4 items)
    | obj kvs2 => simp [_get_dynamic_engaging_words, h1, h2, h3]

/-- C3 witness: the amended theorem applied on concrete responses for each
failure path. -/
theorem C3_engaging_words_witness :
    _get_dynamic_engaging_words (Except.error ()) "tech" "snippet" = FALLBACK_ENGAGING_WORDS ∧
      _get_dynamic_engaging_words (Except.ok "no json here") "tech" "snippet" = [] ∧
      _get_dynamic_engaging_words (Except.ok "\x7bbad\x7d") "tech" "snippet" =
        FALLBACK_ENGAGING_WORDS ∧
      _get_dynamic_engaging_words (Except.ok "\x7b\"a\": 1\x7d") "tech" "snippet" = [] ∧
      _get_dynamic_engaging_words
          (Except.ok "\x7b\"engaging_words\": [\"How To\", \"WOW\"]\x7d") "tech" "snippet" =
        ["How To", "WOW"].map pyLower ∧
      _get_dynamic_engaging_words
          (Except.ok "\x7b\"engaging_words\": [1]\x7d") "tech" "snippet" = [] ∧
      _get_dynamic_engaging_words
          (Except.ok "\x7b\"engaging_words\": \"x\"\x7d") "tech" "snippet" = [] :=
  ⟨C3_engaging_words_failure_paths.1 () "tech" "snippet",
   C3_engaging_words_failure_paths.2.1 "no json here" "tech" "snippet" rfl,
   C3_engaging_words_failure_paths.2.2.1 "\x7bbad\x7d" "\x7bbad\x7d" "tech" "snippet" rfl rfl,
   C3_engaging_words_failure_paths.2.2.2.1 "\x7b\"a\": 1\x7d" "\x7b\"a\": 1\x7d" "tech"
     "snippet" [("a", Json.num "1")] rfl rfl rfl,
   C3_engaging_words_failure_paths.2.2.2.2.1 "\x7b\"engaging_words\": [\"How To\", \"WOW\"]\x7d"
     "\x7b\"engaging_words\": [\"How To\", \"WOW\"]\x7d" "tech" "snippet"
     [("engaging_words", Json.arr [Json.str "How To", Json.str "WOW"])]
     [Json.str "How To", Json.str "WOW"] ["How To", "WOW"] rfl rfl rfl rfl,
   C3_engaging_words_failure_paths.2.2.2.2.2.1 "\x7b\"engaging_words\": [1]\x7d"
     "\x7b\"engaging_words\": [1]\x7d" "tech" "snippet"
     [("engaging_words", Json.arr [Json.num "1"])] [Json.num "1"] rfl rfl rfl rfl,
   C3_engaging_words_failure_paths.2.2.2.2.2.2 "\x7b\"engaging_words\": \"x\"\x7d"
     "\x7b\"engaging_words\": \"x\"\x7d" "tech" "snippet"
     [("engaging_words", Json.str "x")] (Json.str "x") rfl rfl rfl
     (fun _items h => Json.noConfusion h)⟩

/-! ## viral.py : `_detect_category` (lines 50-63) -/

def tech_keywords : List String := ["ai", "programming", "software", "gadget", "review"]

def business_keywords : List String :=
  ["marketing", "startup", "finance", "investment", "strategy"]

def tutorial_keywords : List String :=
  ["how to", "guide", "step-by-step", "tutorial", "learn"]

def entertainment_keywords : List String := ["comedy", "vlog", "challenge", "reaction"]

def education_keywords : List String := ["science", "history", "explained", "documentary"]

/-- The category table of viral.py lines 53-59, in declaration order
(Python dicts iterate in insertion order). -/
def categories : List (String × List String) :=
  [("tech", tech_keywords), ("business", business_keywords),
   ("tutorial", tutorial_keywords), ("entertainment", entertainment_keywords),
   ("education", education_keywords)]

/-- The scanned text `(title + " " + content).lower()` of viral.py line 52. -/
def text_to_scan (title content : String) : String :=
  pyLower (title ++ " " ++ content)

/-- Whether any keyword of a category occurs in the scanned text
(viral.py line 61). -/
def categoryMatches (kws : List String) (txt : String) : Bool :=
  kws.any (fun k => pySubstr k txt)

/-- Embedding of `_detect_category` (viral.py lines 50-63): the first
category in table order with a matching keyword, else "general". -/
def _detect_category (title content : String) : String :=
  match categories.find? (fun c => categoryMatches c.2 (text_to_scan title content)) with
  | some c => c.1
  | none => "general"

/-! ## viral.py : `calculate_viral_score` (lines 65-97)

The body is a sequence of `score +=` steps; each step below is one named
component.  `views` and `likes` are Python ints (`Int` here); the float
division `likes / views` is modelled exactly over `ℚ`. -/

/-- Title component (viral.py lines 75-76):
`min(sum(8 for word in engaging_words if word in title_lower), 20)`. -/
def title_component (engaging_words : List String) (title_lower : String) : Int :=
  min (8 * (engaging_words.countP (fun w => pySubstr w title_lower) : Int)) 20

/-- The engagement ratio of viral.py line 78:
`(likes / views) if likes > 0 else 0`. -/
def engagement_ratio (views likes : Int) : ℚ :=
  if 0 < likes then (likes : ℚ) / (views : ℚ) else 0

/-- Engagement component (viral.py lines 77-84). -/
def engagement_component (views likes : Int) : Int :=
  if 1000 < views then
    if engagement_ratio views likes > (0.05 : ℚ) then 25
    else if engagement_ratio views likes > (0.03 : ℚ) then 20
    else if engagement_ratio views likes > (0.015 : ℚ) then 15
    else 10
  else 10

/-- The fixed indicator words of viral.py line 86. -/
def quality_and_trends : List String :=
  ["tutorial", "guide", "review", "comparison", "case study", "explained",
   "documentary", "ai", "productivity", "health", "finance"]

/-- Quality component (viral.py lines 86-88):
`min(sum(3 for indicator in quality_and_trends if indicator in content_lower), 20)`. -/
def quality_component (content_lower : String) : Int :=
  min (3 * (quality_and_trends.countP (fun w => pySubstr w content_lower) : Int)) 20

/-- `len(content.split())` of viral.py line 89. -/
def content_length (content : String) : Nat := (pySplitWS content).length

/-- Content-length component (viral.py lines 89-91).  Note that it splits
the original `content`, not `content_lower`. -/
def length_component (content : String) : Int :=
  if 150 ≤ content_length content ∧ content_length content ≤ 700 then 10 else 5

/-- The try-body of `calculate_viral_score` (viral.py lines 69-94) with
the engaging-words list already resolved: the five additive components
(including the fixed `score += 5` of line 85) followed by the clamp
`max(0, min(100, score))` of line 92. -/
def viral_score_core (engaging_words : List String) (content title : String)
    (views likes : Int) : Int :=
  max 0 (min 100
    (title_component engaging_words (pyLower title) +
      engagement_component views likes + 5 +
      quality_component (pyLower content) +
      length_component content))

/-- Embedding of a non-exception run of `calculate_viral_score`
(viral.py lines 65-94): the category is detected from the lower-cased
title and content, the engaging words come from the Gemini oracle, and
the core formula produces the score.  The `comments` parameter of the
Python signature is never read by the body. -/
def calculate_viral_score (geminiOutcome : Except Unit String)
    (content title : String) (views likes : Int) : Int :=
  viral_score_core
    (_get_dynamic_engaging_words geminiOutcome
      (_detect_category (pyLower title) (pyLower content)) content)
    content title views likes

/-! ## viral.py line 95-97 and api/routers/analyze.py

The routers call `viral_service.calculate_viral_score(...)` inside
`try`/`except` blocks.  Python call semantics are modelled explicitly:
binding positional arguments against the parameter list raises
`TypeError` when the counts differ, before the function body runs. -/

/-- Python exceptions relevant to the call sites. -/
inductive PyExc where
  | typeError
  | other

/-- Untyped Python values passed as call arguments. -/
inductive PyVal where
  | str (s : String)
  | int (n : Int)
  | list (xs : List PyVal)

/-- The parameter list of `calculate_viral_score` after `self`
(viral.py line 65). -/
def calculate_viral_score_params : List String :=
  ["content", "title", "views", "likes", "comments"]

/-- Python positional-argument binding: a missing or extra positional
argument raises `TypeError` before the body runs. -/
def bindPositional (params : List String) (args : List PyVal) :
    Except PyExc (List (String × PyVal)) :=
  if args.length = params.length then Except.ok (params.zip args)
  else Except.error PyExc.typeError

/-- A call of `calculate_viral_score` with a positional argument list:
binding failure raises; a successful binding of the expected value shapes
runs the body (the `comments` argument is never read by the body). -/
def call_calculate_viral_score (geminiOutcome : Except Unit String)
    (args : List PyVal) : Except PyExc Int :=
  match bindPositional calculate_viral_score_params args with
  | Except.error e => Except.error e
  | Except.ok bound =>
    match bound.map Prod.snd with
    | [PyVal.str content, PyVal.str title, PyVal.int views, PyVal.int likes, _comments] =>
      Except.ok (calculate_viral_score geminiOutcome content title views likes)
    | _ => Except.error PyExc.other

/-- The `except` handler around the score call in `analyze_content`
(analyze.py lines 93-103): any exception is swallowed and the default 65
is used. -/
def analyze_score_handler (result : Except PyExc Int) : Int :=
  match result with
  | Except.ok s => s
  | Except.error _ => 65

/-- The `except` handler around the score call in `analyze_document`
(analyze.py lines 173-182): any exception is swallowed and the default 70
is used. -/
def analyze_document_score_handler (result : Except PyExc Int) : Int :=
  match result with
  | Except.ok s => s
  | Except.error _ => 70

/-- The viral-score step of the `/analyze` endpoint (analyze.py lines
93-103): the call passes exactly four positional arguments. -/
def analyze_viral_score_step (geminiOutcome : Except Unit String)
    (transcript title : String) (views likes : Int) : Int :=
  analyze_score_handler (call_calculate_viral_score geminiOutcome
    [PyVal.str transcript, PyVal.str title, PyVal.int views, PyVal.int likes])

/-- The viral-score step of the `/analyze-document` endpoint (analyze.py
lines 173-182): four positional arguments, with views = likes = 0. -/
def analyze_document_viral_score_step (geminiOutcome : Except Unit String)
    (document_text filename : String) : Int :=
  analyze_document_score_handler (call_calculate_viral_score geminiOutcome
    [PyVal.str document_text, PyVal.str filename, PyVal.int 0, PyVal.int 0])

/-- The outer `try`/`except` of `calculate_viral_score` itself (viral.py
lines 67 and 95-97): an exception raised anywhere in the body makes the
function return 70. -/
def calculate_viral_score_guarded (interrupt : Option PyExc)
    (geminiOutcome : Except Unit String) (content title : String)
    (views likes : Int) : Int :=
  match interrupt with
  | some _ => 70
  | none => calculate_viral_score geminiOutcome content title views likes

/-- The viral-label chain of `analyze_content` (analyze.py lines 106-111). -/
def viral_label_analyze (viral_score : Int) : String :=
  if viral_score ≥ 80 then "Very High Potential"
  else if viral_score ≥ 60 then "Good Potential"
  else "Needs Improvement"

/-- The viral-label chain of `analyze_document` (analyze.py lines 195-200). -/
def viral_label_document (viral_score : Int) : String :=
  if viral_score ≥ 80 then "Very High Potential"
  else if viral_score ≥ 60 then "Good Potential"
  else "Needs Improvement"

/-! Spec-side definition for claim C4 (worded as in the claim, to be
compared with `engagement_component`). -/

/-- Claim-side engagement component: when views > 1000, ratio is
likes/views taken as 0 when likes = 0, with thresholds 0.05, 0.03,
0.015; otherwise a flat +10. -/
def engagement_component_claim (views likes : Int) : Int :=
  if 1000 < views then
    if (if likes = 0 then (0 : ℚ) else (likes : ℚ) / (views : ℚ)) > (0.05 : ℚ) then 25
    else if (if likes = 0 then (0 : ℚ) else (likes : ℚ) / (views : ℚ)) > (0.03 : ℚ) then 20
    else if (if likes = 0 then (0 : ℚ) else (likes : ℚ) / (views : ℚ)) > (0.015 : ℚ) then 15
    else 10
  else 10

/-! ### Component bounds -/

theorem title_component_bounds (ew : List String) (t : String) :
    0 ≤ title_component ew t ∧ title_component ew t ≤ 20 := by
  unfold title_component
  constructor
  · exact le_min (mul_nonneg (by norm_num) (Int.natCast_nonneg _)) (by norm_num)
  · exact min_le_right _ _

theorem engagement_component_bounds (v l : Int) :
    10 ≤ engagement_component v l ∧ engagement_component v l ≤ 25 := by
  unfold engagement_component
  split_ifs <;> norm_num

theorem quality_component_bounds (c : String) :
    0 ≤ quality_component c ∧ quality_component c ≤ 20 := by
  unfold quality_component
  constructor
  · exact le_min (mul_nonneg (by norm_num) (Int.natCast_nonneg _)) (by norm_num)
  · exact min_le_right _ _

theorem length_component_bounds (c : String) :
    5 ≤ length_component c ∧ length_component c ≤ 10 := by
  unfold length_component
  split_ifs <;> norm_num

/-- The raw component sum is already within [0,100], so the clamp of
viral.py line 92 leaves it unchanged. -/
theorem viral_score_core_unclamped (ew : List String) (c t : String) (v l : Int) :
    viral_score_core ew c t v l =
      title_component ew (pyLower t) + engagement_component v l + 5 +
        quality_component (pyLower c) + length_component c := by
  have h1 := title_component_bounds ew (pyLower t)
  have h2 := engagement_component_bounds v l
  have h3 := quality_component_bounds (pyLower c)
  have h4 := length_component_bounds c
  unfold viral_score_core
  omega

/-- C1: for every content, title, view count, like count and
engaging-words list, a non-exception run of `calculate_viral_score`
returns an integer in [0,100] (stated both for the score body with an
arbitrary engaging-words list and for the full function under an
arbitrary oracle outcome). -/
theorem C1_viral_score_in_range :
    ∀ (engaging_words : List String) (content title : String) (views likes : Int),
      (0 ≤ viral_score_core engaging_words content title views likes ∧
        viral_score_core engaging_words content title views likes ≤ 100) ∧
      ∀ geminiOutcome : Except Unit String,
        0 ≤ calculate_viral_score geminiOutcome content title views likes ∧
          calculate_viral_score geminiOutcome content title views likes ≤ 100 := by
  intro ew c t v l
  constructor
  · unfold viral_score_core
    omega
  · intro g
    unfold calculate_viral_score viral_score_core
    omega

/-- C10: every non-exception run of the scoring body stays in [20,80]:
the clamp is never binding, and a score of at least 80 happens exactly
when every component is at its maximum (title 20, engagement 25,
quality 20, length 10, plus the fixed baseline 5). -/
theorem C10_core_score_range :
    ∀ (engaging_words : List String) (content title : String) (views likes : Int),
      20 ≤ viral_score_core engaging_words content title views likes ∧
      viral_score_core engaging_words content title views likes ≤ 80 ∧
      viral_score_core engaging_words content title views likes =
        title_component engaging_words (pyLower title) +
          engagement_component views likes + 5 +
          quality_component (pyLower content) + length_component content ∧
      (80 ≤ viral_score_core engaging_words content title views likes ↔
        title_component engaging_words (pyLower title) = 20 ∧
          engagement_component views likes = 25 ∧
          quality_component (pyLower content) = 20 ∧
          length_component content = 10) := by
  intro ew c t v l
  have h1 := title_component_bounds ew (pyLower t)
  have h2 := engagement_component_bounds v l
  have h3 := quality_component_bounds (pyLower c)
  have h4 := length_component_bounds c
  have hu := viral_score_core_unclamped ew c t v l
  rw [hu]
  omega

/-- C4: the engagement component equals the claim's description — for
views > 1000 the ratio likes/views (0 when likes = 0) is compared against
0.05, 0.03, 0.015 for +25/+20/+15/+10, and views ≤ 1000 gives a flat +10 —
with the claim's own worked examples views=2000, likes=120 → +25 and
views=500 → +10 regardless of likes. -/
theorem C4_engagement_ratio_component :
    ∀ views likes : Int,
      engagement_component views likes = engagement_component_claim views likes ∧
      engagement_component 2000 120 = 25 ∧
      engagement_component 500 999999 = 10 ∧
      engagement_component 500 0 = 10 := by
  intro v l
  refine ⟨?_, by unfold engagement_component engagement_ratio; norm_num,
    by unfold engagement_component; norm_num,
    by unfold engagement_component; norm_num⟩
  by_cases hv : 1000 < v
  · rcases lt_trichotomy l 0 with hl | hl | hl
    · have hratio : engagement_ratio v l = 0 := by
        unfold engagement_ratio
        rw [if_neg (by omega)]
      have hvq : (0 : ℚ) < (v : ℚ) := by exact_mod_cast (by omega : (0 : Int) < v)
      have hlq : (l : ℚ) < 0 := by exact_mod_cast hl
      have hlv : (l : ℚ) / (v : ℚ) < 0 := div_neg_of_neg_of_pos hlq hvq
      have hL : engagement_component v l = 10 := by
        unfold engagement_component
        rw [if_pos hv, hratio]
        norm_num
      have hR : engagement_component_claim v l = 10 := by
        unfold engagement_component_claim
        rw [if_pos hv, if_neg (by omega : ¬ l = 0)]
        have n1 : ¬ ((l : ℚ) / (v : ℚ) > (0.05 : ℚ)) := not_lt.mpr (by linarith)
        have n2 : ¬ ((l : ℚ) / (v : ℚ) > (0.03 : ℚ)) := not_lt.mpr (by linarith)
        have n3 : ¬ ((l : ℚ) / (v : ℚ) > (0.015 : ℚ)) := not_lt.mpr (by linarith)
        rw [if_neg n1, if_neg n2, if_neg n3]
      rw [hL, hR]
    · subst hl
      unfold engagement_component engagement_component_claim engagement_ratio
      norm_num
    · have hratio : engagement_ratio v l = (l : ℚ) / (v : ℚ) := by
        unfold engagement_ratio
        rw [if_pos hl]
      unfold engagement_component engagement_component_claim
      rw [hratio, if_neg (by omega : ¬ l = 0)]
  · unfold engagement_component engagement_component_claim
    rw [if_neg hv, if_neg hv]

/-- C5: the content-length component is +10 exactly when the
whitespace-split word count lies in [150,700], and +5 otherwise. -/
theorem C5_content_length_component :
    ∀ content : String,
      (length_component content = 10 ↔
        150 ≤ content_length content ∧ content_length content ≤ 700) ∧
      (length_component content = 5 ↔
        ¬(150 ≤ content_length content ∧ content_length content ≤ 700)) := by
  intro c
  unfold length_component
  split_ifs with h
  · simp [h]
  · simp [h]

/-- C7: both call sites derive the label identically, with
"Very High Potential" exactly for score ≥ 80, "Good Potential" exactly
for 60 ≤ score < 80 and "Needs Improvement" exactly for score < 60
(inclusive lower bounds). -/
theorem C7_viral_label_thresholds :
    ∀ s : Int,
      viral_label_analyze s = viral_label_document s ∧
      (viral_label_analyze s = "Very High Potential" ↔ 80 ≤ s) ∧
      (viral_label_analyze s = "Good Potential" ↔ 60 ≤ s ∧ s < 80) ∧
      (viral_label_analyze s = "Needs Improvement" ↔ s < 60) := by
  intro s
  refine ⟨rfl, ?_⟩
  unfold viral_label_analyze
  split_ifs with h1 h2
  · exact ⟨iff_of_true rfl (by omega), iff_of_false (by decide) (by omega),
      iff_of_false (by decide) (by omega)⟩
  · exact ⟨iff_of_false (by decide) (by omega), iff_of_true rfl (by omega),
      iff_of_false (by decide) (by omega)⟩
  · exact ⟨iff_of_false (by decide) (by omega), iff_of_false (by decide) (by omega),
      iff_of_true rfl (by omega)⟩

/-- C8: when the scoring computation raises, every call context swallows
the exception and substitutes its own literal default: 65 in
`analyze_content`, 70 in `analyze_document`, and 70 inside
`calculate_viral_score`'s own handler, while a returned score passes
through unchanged. -/
theorem C8_exception_defaults :
    ∀ e : PyExc,
      analyze_score_handler (Except.error e) = 65 ∧
      analyze_document_score_handler (Except.error e) = 70 ∧
      (∀ (g : Except Unit String) (c t : String) (v l : Int),
        calculate_viral_score_guarded (some e) g c t v l = 70) ∧
      (∀ s : Int, analyze_score_handler (Except.ok s) = s ∧
        analyze_document_score_handler (Except.ok s) = s) := by
  intro e
  exact ⟨rfl, rfl, fun g c t v l => rfl, fun s => ⟨rfl, rfl⟩⟩

/-- C2: both router call sites pass four positional arguments to the
five-parameter `calculate_viral_score`, so the call raises `TypeError`
during argument binding; the surrounding handlers therefore make the
`/analyze` endpoint report 65 and the `/analyze-document` endpoint
report 70 for every input. -/
theorem C2_router_calls_raise_typeerror :
    ∀ (g : Except Unit String) (transcript title : String) (views likes : Int),
      call_calculate_viral_score g
          [PyVal.str transcript, PyVal.str title, PyVal.int views, PyVal.int likes] =
        Except.error PyExc.typeError ∧
      analyze_viral_score_step g transcript title views likes = 65 ∧
      ∀ document_text filename : String,
        analyze_document_viral_score_step g document_text filename = 70 := by
  intro g tr ti v l
  exact ⟨rfl, rfl, fun d f => rfl⟩

/-- C6: `_detect_category` lower-cases and concatenates title and content,
scans the table in declared order tech, business, tutorial,
entertainment, education, returns the first category with a matching
keyword substring, and returns "general" when nothing matches (in
particular for empty inputs); a text with both a tech and a business
keyword resolves to tech. -/
theorem C6_detect_category_first_match :
    (∀ title content : String,
      _detect_category title content =
        (if categoryMatches tech_keywords (text_to_scan title content) then "tech"
         else if categoryMatches business_keywords (text_to_scan title content) then "business"
         else if categoryMatches tutorial_keywords (text_to_scan title content) then "tutorial"
         else if categoryMatches entertainment_keywords (text_to_scan title content) then
           "entertainment"
         else if categoryMatches education_keywords (text_to_scan title content) then
           "education"
         else "general")) ∧
      _detect_category "" "" = "general" ∧
      ∀ title content : String,
        categoryMatches tech_keywords (text_to_scan title content) = true →
          _detect_category title content = "tech" := by
  have main : ∀ title content : String,
      _detect_category title content =
        (if categoryMatches tech_keywords (text_to_scan title content) then "tech"
         else if categoryMatches business_keywords (text_to_scan title content) then "business"
         else if categoryMatches tutorial_keywords (text_to_scan title content) then "tutorial"
         else if categoryMatches entertainment_keywords (text_to_scan title content) then
           "entertainment"
         else if categoryMatches education_keywords (text_to_scan title content) then
           "education"
         else "general") := by
    intro title content
    unfold _detect_category categories
    by_cases h1 : categoryMatches tech_keywords (text_to_scan title content) = true
    · rw [List.find?_cons_of_pos _ (by simpa using h1)]
      simp [h1]
    · rw [List.find?_cons_of_neg _ (by simpa using h1)]
      by_cases h2 : categoryMatches business_keywords (text_to_scan title content) = true
      · rw [List.find?_cons_of_pos _ (by simpa using h2)]
        simp [h1, h2]
      · rw [List.find?_cons_of_neg _ (by simpa using h2)]
        by_cases h3 : categoryMatches tutorial_keywords (text_to_scan title content) = true
        · rw [List.find?_cons_of_pos _ (by simpa using h3)]
          simp [h1, h2, h3]
        · rw [List.find?_cons_of_neg _ (by simpa using h3)]
          by_cases h4 :
              categoryMatches entertainment_keywords (text_to_scan title content) = true
          · rw [List.find?_cons_of_pos _ (by simpa using h4)]
            simp [h1, h2, h3, h4]
          · rw [List.find?_cons_of_neg _ (by simpa using h4)]
            by_cases h5 :
                categoryMatches education_keywords (text_to_scan title content) = true
            · rw [List.find?_cons_of_pos _ (by simpa using h5)]
              simp [h1, h2, h3, h4, h5]
            · rw [List.find?_cons_of_neg _ (by simpa using h5)]
              simp [h1, h2, h3, h4, h5]
  refine ⟨main, by decide, ?_⟩
  intro title content h
  rw [main title content]
  simp [h]

/-- C6 witness: the first-match property applied at the concrete input
title = "ai", content = "", whose scanned text matches the tech keyword
"ai". -/
theorem C6_detect_category_witness : _detect_category "ai" "" = "tech" :=
  C6_detect_category_first_match.2.2 "ai" "" (by decide)
